import Mathlib

/-!
# Verification of `django_elasticsearch/query.py` (EsQueryset)

A shallow embedding of the lazy query-builder/executor `EsQueryset` from
`django_elasticsearch/query.py`, together with theorems settling the frozen
claims about it.

Modelling conventions:
* Python strings are `List Char` (`Str`); `lookup.split('__')` is `splitOn2`,
  `'.'.join(...)` is `interDot`, `field.split('.')[0]` is `dotHead`.
* Python dicts are insertion-ordered association lists with `dictGet` /
  `dictSet` / `dictUpdate` mirroring item lookup, item assignment and
  `dict.update` (assignment to an existing key keeps its position).
* Result rows (`e['_source']`) are modelled by their document ids (`Int`);
  the external serializer (`model.es.deserialize`) is the identity on this
  representation, so the deserialized and raw forms of a row coincide.
* The search backend (`es_client`) is an explicit `Backend` record of pure
  functions; every call the queryset makes to it is logged in a
  `List Request` so that round trips can be counted.
* Exceptions are `Except PyErr`; Python truthiness of the values involved is
  modelled explicitly (`truthy`, `optListTruthy`, `optNatTruthy`).
* Methods that mutate `self` return the mutated `self`; methods that clone
  return the pair `(self-after-call, returned-cursor)` so that frame effects
  on the receiver are visible in the embedding.
-/

/-- Python strings, as lists of characters. -/
abbrev Str := List Char

/-- Model of `lookup.split('__')`: split on the two-character separator `__`,
left to right, non-overlapping, as Python `str.split` does. -/
def splitOn2 : Str → List Str
  | [] => [[]]
  | '_' :: '_' :: rest => [] :: splitOn2 rest
  | c :: rest =>
    match splitOn2 rest with
    | [] => [[c]]
    | w :: ws => (c :: w) :: ws

/-- Model of `'.'.join(fields)`. -/
def interDot (l : List Str) : Str := List.intercalate ['.'] l

/-- Model of `field.split('.')[0]`: everything before the first dot. -/
def dotHead (f : Str) : Str := f.takeWhile (fun c => c ≠ '.')

/-- Lookup of a key in a Python dict modelled as an association list. -/
def dictGet {α : Type} (d : List (Str × α)) (k : Str) : Option α :=
  match d with
  | [] => none
  | (k', v) :: rest => if k' = k then some v else dictGet rest k

/-- Membership test `k in d` for a Python dict. -/
def dictHas {α : Type} (d : List (Str × α)) (k : Str) : Bool :=
  match d with
  | [] => false
  | (k', _) :: rest => k' = k || dictHas rest k

/-- Assignment `d[k] = v`: overwrite the value of the key in place when it is present
(Python dicts keep the key's insertion position, and their keys are unique),
else append the new pair. -/
def dictSet {α : Type} (d : List (Str × α)) (k : Str) (v : α) : List (Str × α) :=
  match d with
  | [] => [(k, v)]
  | (k0, v0) :: rest => if k0 = k then (k, v) :: rest else (k0, v0) :: dictSet rest k v

/-- Model of `d.update(kvs)`: assign each pair in order. -/
def dictUpdate {α : Type} (d : List (Str × α)) (kvs : List (Str × α)) : List (Str × α) :=
  kvs.foldl (fun acc kv => dictSet acc kv.1 kv.2) d

/-- The operator vocabulary of `EsQueryset.sanitize_lookup`. -/
def valid_operators : List Str :=
  ["must".data, "must_not".data, "should".data,
   "range".data, "gt".data, "lt".data, "gte".data, "lte".data,
   "exists".data, "isnull".data]

/-- Model of `EsQueryset.sanitize_lookup` (query.py lines 336-350): split the lookup on
`__`, keep every segment that is not an operator name as the field path
(rejoined with `.`), and take the trailing segment as the operator when it is
in the vocabulary, else default to `must`.  (The `isnull` deprecation warning
is a log side effect and is not modelled.) -/
def sanitize_lookup (lookup : Str) : Str × Str :=
  let words := splitOn2 lookup
  let fields := words.filter (fun w => decide (w ∉ valid_operators))
  let operator :=
    if words.getLastD [] ∈ valid_operators then words.getLastD [] else "must".data
  (interDot fields, operator)

/-- Values a filter can hold: numbers, strings, booleans, tuples (used by the
`range` lookup), Django model instances (observed through `.id`), and
datetimes (observed through `.isoformat()`). -/
inductive FilterValue where
  | int (n : Int)
  | str (s : Str)
  | bool (b : Bool)
  | pair (a b : FilterValue)
  | modelRef (id : Int)
  | datetime (t : Nat)
deriving DecidableEq

/-- Python truthiness of a filter value (`not value` in `exclude`). -/
def truthy : FilterValue → Bool
  | .int n => n ≠ 0
  | .str s => s ≠ []
  | .bool b => b
  | .pair _ _ => true
  | .modelRef _ => true
  | .datetime _ => true

/-- Model of `datetime.isoformat()`, rendered as an injective rendering of the instant. -/
def isoformat (t : Nat) : Str := Nat.toDigits 10 t

/-- The `type` of a field in `model.es.mapping['properties']`, as far as
`make_search_body` inspects it. -/
inductive FieldType where
  | nested
  | text
  | other
deriving DecidableEq

/-- The external index descriptor (`model.es`, out of scope per the spec):
index name, searchable fields, field-type mapping and fallback ordering. -/
structure EsModel where
  index : Str
  searchFields : List Str
  mapping : List (Str × FieldType)
  ordering : Option (List Str)
deriving DecidableEq

/-- Bounds of an elasticsearch `range` clause: a single bound
(`gt`/`gte`/`lt`/`lte`) or the two-sided `gte`/`lte` form. -/
inductive RangeBounds where
  | single (op : Str) (value : FilterValue)
  | both (gte lte : FilterValue)
deriving DecidableEq

/-- A non-nested elasticsearch query clause, as produced by
`make_search_body`. -/
inductive FlatQuery where
  | multi_match (query : Str) (fields : List Str) (fuzziness : Option ℚ)
  | match_all
  | match_ (field : Str) (value : FilterValue)
  | term (field : Str) (value : FilterValue)
  | range (field : Str) (bounds : RangeBounds)
  | exists_ (field : Str)
deriving DecidableEq

/-- A boolean body holding only flat clauses.  `make_search_body` only ever
wraps the single freshly-built filter clause in a `nested` envelope, so the
body inside a `nested` envelope is always flat; the embedding stratifies the
query type accordingly. -/
structure FlatBody where
  must : List FlatQuery := []
  must_not : List FlatQuery := []
  should : List FlatQuery := []
deriving DecidableEq

/-- A top-level clause of the compiled boolean body: either a flat clause or a
`nested` envelope (`{'nested': {'path': p, 'query': {'bool': body}}}`). -/
inductive EsQuery where
  | flat (q : FlatQuery)
  | nested (path : Str) (query : FlatBody)
deriving DecidableEq

/-- The accumulating boolean body (`search` in `make_search_body`); the final
compiled body is `{"query": {"bool": <this>}}`. -/
structure BoolBody where
  must : List EsQuery := []
  must_not : List EsQuery := []
  should : List EsQuery := []
deriving DecidableEq

/-- The singleton bucket `{operator: [q]}` for `operator` among must/must_not/should. -/
def bucket (op : Str) (qs : List FlatQuery) : FlatBody :=
  if op = "must".data then { must := qs }
  else if op = "must_not".data then { must_not := qs }
  else { should := qs }

/-- View a flat body as a top-level boolean body. -/
def liftBody (f : FlatBody) : BoolBody :=
  { must := f.must.map .flat
    must_not := f.must_not.map .flat
    should := f.should.map .flat }

/-- Modelled from the spec: `nested_update` lives in
`django_elasticsearch/utils.py`, which is not under `src/`.  Spec §4.4 step 4
describes it as a deep, bucket-aware union in which "same boolean-clause-bucket
arrays are concatenated, not overwritten". -/
def nested_update (s f : BoolBody) : BoolBody :=
  { must := s.must ++ f.must
    must_not := s.must_not ++ f.must_not
    should := s.should ++ f.should }

/-- Python exceptions raised (or raisable) on the modelled paths. -/
inductive PyErr where
  | valueError
  | typeError
  | indexError
  | attributeError
  | notImplementedError
deriving DecidableEq

/-- One iteration of the filter loop in `EsQueryset.make_search_body`
(query.py lines 141-190): resolve the lookup, rewrite nested model values and
datetimes, build the clause for the operator, and wrap it in a `nested`
envelope when the top-level field is nested. -/
def compileFilter (m : EsModel) (kv : Str × FilterValue) : Except PyErr BoolBody :=
  let (field, operator) := sanitize_lookup kv.1
  let field_ := dotHead field
  let is_nested := dictGet m.mapping field_ = some FieldType.nested
  let fv : Str × FilterValue :=
    if is_nested then
      match kv.2 with
      | .modelRef id => (field ++ ".id".data, .int id)
      | v => (field, v)
    else (field, kv.2)
  let field_name := fv.1
  let value : FilterValue :=
    match fv.2 with
    | .datetime t => .str (isoformat t)
    | v => v
  do
  let filtr : FlatBody ←
    if operator ∈ ["must".data, "must_not".data, "should".data] then
      let mode := dictGet m.mapping field_ = some FieldType.text
      pure (bucket operator [if mode then .match_ field_name value else .term field_name value])
    else if operator ∈ ["gt".data, "gte".data, "lt".data, "lte".data] then
      pure { must := [.range field_name (.single operator value)] }
    else if operator = "range".data then
      match value with
      | .pair a b => pure { must := [.range field_name (.both a b)] }
      | _ => Except.error PyErr.typeError
    else if operator = "isnull".data then
      pure (if truthy value then { must_not := [.exists_ field_name] }
            else { must := [.exists_ field_name] })
    else if operator = "exists".data then
      pure (if truthy value then { must := [.exists_ field_name] }
            else { must_not := [.exists_ field_name] })
    else
      Except.error PyErr.valueError
  pure (if is_nested then { must := [.nested field_ filtr] } else liftBody filtr)

/-- Fold the filter loop over the filters dict, merging each produced clause
into the accumulating body with `nested_update`. -/
def mergeFilters (m : EsModel) (s : BoolBody) : List (Str × FilterValue) → Except PyErr BoolBody
  | [] => pure s
  | kv :: rest => do
    let f ← compileFilter m kv
    mergeFilters m (nested_update s f) rest

/-- How `make_search_body` renders `self.fuzziness` into the `multi_match`
clause: the number itself, or the `'AUTO'` sentinel when it is `None`. -/
def fuzzinessParam (f : Option ℚ) : Option ℚ := f

/-- The state of an `EsQueryset` (query.py `__init__`, lines 23-58), plus the
attributes `do_search` sets (`_response` is kept as the raw response,
`_body` as the compiled request body). -/
structure SearchResponsePre where
  hits : List Int
  max_score : Option Int
  total : Nat
  suggest : Option (List (Str × Str))
  aggregations : Option (List (Str × Nat))
deriving DecidableEq

/-- One aggregation entry `{field: {'terms': {'field': field, ['size': limit]}}}`. -/
structure AggTerms where
  field : Str
  size : Option Nat
deriving DecidableEq

/-- One suggester entry: `{'text': query, 'term': {'field': f, ['size': n]}}`. -/
structure SuggestTerm where
  text : Str
  field : Str
  size : Option Nat
deriving DecidableEq

/-- One entry of the `sort` list: `{field: "asc"|"desc"}` or `"_score"`. -/
inductive SortSpec where
  | byField (field : Str) (asc : Bool)
  | score
deriving DecidableEq

/-- The keyword arguments accepted by `mlt` (only the keys `do_search`
reads). -/
structure MltKwargs where
  id : Option Int := none
  fields : Option (List Str) := none
  min_term_frequency : Option Nat := none
  max_term_frequency : Option Nat := none
deriving DecidableEq

/-- The `more_like_this` parameters `do_search` builds in MLT mode
(`fields = none` renders the `'_all'` default). -/
structure MltSpec where
  fields : Option (List Str)
  like_id : Option Int
  min_term_frequency : Nat
  max_term_frequency : Nat
deriving DecidableEq

/-- The request body handed to the client: the compiled boolean query plus the
optional `aggs` / `suggest` / `sort` keys and the opaque `extra_body` payload
merged last. -/
structure SearchBody where
  query : BoolBody
  aggs : Option (List (Str × AggTerms)) := none
  suggest : Option (List (Str × SuggestTerm)) := none
  sort : Option (List SortSpec) := none
  extra : Option Nat := none
deriving DecidableEq

/-- Everything `do_search` passes to `es_client.search`. -/
structure SearchParams where
  index : List Str
  fromParam : Option Nat
  sizeParam : Option Int
  body : SearchBody
  more_like_this : Option MltSpec
deriving DecidableEq

/-- The cursor.  Field names follow `__init__`; rows are document ids. -/
structure EsQueryset where
  model : EsModel
  index : Str
  mode : Nat := 1
  mlt_kwargs : Option MltKwargs := none
  filters : List (Str × FilterValue) := []
  extra_body : Option Nat := none
  facets_fields : Option (List Str) := none
  facets_limit : Option Nat := none
  global_facets : Bool := true
  suggest_fields : Option (List Str) := none
  suggest_limit : Option Nat := none
  ordering : Option (List Str) := none
  fuzziness : Option ℚ := none
  ndx : Option Nat := none
  _query : Str := []
  _deserialize : Bool := false
  _start : Nat := 0
  _stop : Option Nat := none
  _suggestions : Option (List (Str × Str)) := none
  _facets : Option (List (Str × Nat)) := none
  _result_cache : List Int := []
  _total : Option Nat := none
  _max_score : Option Int := none
  _response : Option SearchResponsePre := none
  _body : Option SearchBody := none
deriving DecidableEq

/-- The `MODE_SEARCH` constant. -/
def MODE_SEARCH : Nat := 1

/-- The `MODE_MLT` constant. -/
def MODE_MLT : Nat := 2

/-- Model of `EsQueryset.__init__(model, fuzziness)`.  Here `settingsFuzziness` stands for
`getattr(settings, 'ELASTICSEARCH_FUZZINESS', 0.5)`; the constructor resolves
the fuzziness from the explicit argument or that process-wide default. -/
def initQs (model : EsModel) (fuzziness : Option ℚ) (settingsFuzziness : Option ℚ) : EsQueryset :=
  { model := model
    index := model.index
    mode := MODE_SEARCH
    mlt_kwargs := none
    filters := []
    extra_body := none
    facets_fields := none
    suggest_fields := none
    suggest_limit := none
    ordering := model.ordering
    fuzziness := match fuzziness with
      | none => settingsFuzziness
      | some f => some f
    ndx := none
    _query := []
    _deserialize := false
    _start := 0
    _stop := none
    _suggestions := none
    _facets := none
    _result_cache := []
    _total := none }

/-- Model of `EsQueryset.make_search_body` (query.py lines 127-194), up to the
`{"query": {"bool": ...}}` wrapper: seed with the multi-field match clause
when there is query text, with `match_all` when there is neither text nor
filters, then merge the compiled filter clauses. -/
def make_search_body (qs : EsQueryset) : Except PyErr BoolBody :=
  let search : BoolBody :=
    if qs._query ≠ [] then
      { must := [.flat (.multi_match qs._query qs.model.searchFields (fuzzinessParam qs.fuzziness))] }
    else if qs.filters = [] then
      { must := [.flat .match_all] }
    else {}
  mergeFilters qs.model search qs.filters

/-- Model of `EsQueryset.is_evaluated` (query.py lines 196-198). -/
def is_evaluated (qs : EsQueryset) : Bool := qs._result_cache.length > 0

/-- Model of `EsQueryset.__deepcopy__` (query.py lines 60-68): copy every attribute
except `_result_cache`, `_facets`, `_suggestions` and `_total`, which keep
their `__init__` values in the fresh object. -/
def esDeepcopy (qs : EsQueryset) : EsQueryset :=
  { qs with _result_cache := [], _facets := none, _suggestions := none, _total := none }

/-- Model of `EsQueryset._clone` (query.py lines 70-77): deep copy, then reset the
results cache and the total. -/
def _clone (qs : EsQueryset) : EsQueryset :=
  let clone := esDeepcopy qs
  { clone with _result_cache := [], _total := none }

/-- Python truthiness of an optional list attribute (`None` and `[]` are
falsy). -/
def optListTruthy {α : Type} (o : Option (List α)) : Bool :=
  match o with
  | some l => ! l.isEmpty
  | none => false

/-- Python truthiness of an optional number attribute (`None` and `0` are
falsy). -/
def optNatTruthy (o : Option Nat) : Bool :=
  match o with
  | some n => decide (n ≠ 0)
  | none => false

/-- Apply `aggs[field]['terms']['size'] = limit` to the entry of the last
field of the loop (the loop variable leaks, so only the final field receives
the size limit - the quirk recorded in spec §9). -/
def setLastSize (l : List (Str × AggTerms)) (n : Nat) : List (Str × AggTerms) :=
  match l with
  | [] => []
  | [x] => [(x.1, { x.2 with size := some n })]
  | x :: rest => x :: setLastSize rest n

/-- The `aggs` dict built by `do_search` (query.py lines 213-223). -/
def buildAggs (fields : List Str) (limit : Option Nat) : List (Str × AggTerms) :=
  let base := fields.map (fun f => (f, AggTerms.mk f none))
  match limit with
  | some n => if n ≠ 0 then setLastSize base n else base
  | none => base

/-- The `suggest` dict built by `do_search` (query.py lines 225-232); unlike
facets, the size limit is applied to every field. -/
def buildSuggest (query : Str) (fields : List Str) (limit : Option Nat) :
    List (Str × SuggestTerm) :=
  fields.map (fun f =>
    (f, { text := query
          field := f
          size := match limit with
            | some n => if n ≠ 0 then some n else none
            | none => none }))

/-- The `sort` list built by `do_search` (query.py lines 234-236): each field
maps to an ascending sort unless prefixed with `-`, with `"_score"` appended.
(On an empty field name the source's `f[0]` would raise; the model sorts it
ascending, a corner no claim touches.) -/
def buildSort (ordering : List Str) : List SortSpec :=
  (ordering.map (fun f =>
    match f with
    | '-' :: rest => SortSpec.byField rest false
    | _ => SortSpec.byField f true)) ++ [SortSpec.score]

/-- Assemble the `search_params` of `do_search` (query.py lines 212-272):
compiled body, aggregations, suggesters, sorting, the pagination window
(`from` only when `_start` is truthy, `size` only when `_stop` is), the
`extra_body` merge and, in MLT mode, the `more_like_this` parameters
(reading `self.mlt_kwargs` raises `AttributeError` when it was never set). -/
def build_search_params (qs : EsQueryset) : Except PyErr SearchParams := do
  let search ← make_search_body qs
  let body : SearchBody :=
    { query := search
      aggs := if optListTruthy qs.facets_fields then
          some (buildAggs (qs.facets_fields.getD []) qs.facets_limit)
        else none
      suggest := if optListTruthy qs.suggest_fields then
          some (buildSuggest qs._query (qs.suggest_fields.getD []) qs.suggest_limit)
        else none
      sort := if optListTruthy qs.ordering then some (buildSort (qs.ordering.getD [])) else none
      extra := qs.extra_body }
  let mlt : Option MltSpec ←
    if qs.mode = MODE_MLT then
      match qs.mlt_kwargs with
      | none => Except.error PyErr.attributeError
      | some k => pure (some
          { fields := k.fields
            like_id := k.id
            min_term_frequency := k.min_term_frequency.getD 1
            max_term_frequency := k.max_term_frequency.getD 10 })
    else pure none
  pure
    { index := [qs.index]
      fromParam := if qs._start ≠ 0 then some qs._start else none
      sizeParam := match qs._stop with
        | some s => if s ≠ 0 then some ((s : Int) - (qs._start : Int)) else none
        | none => none
      body := body
      more_like_this := mlt }

/-- The external search client (`es_client`), as a record of pure functions:
`search(**search_params)` and `count(index=..., body=...)`. -/
structure Backend where
  searchFn : SearchParams → SearchResponsePre
  countFn : Str → BoolBody → Nat

/-- One round trip to the backend. -/
inductive Request where
  | searchReq (p : SearchParams)
  | countReq (index : Str) (body : BoolBody)

/-- Model of `EsQueryset.do_search` (query.py lines 208-292): return immediately when
the cache is already populated, otherwise build the request, issue it, and
unpack the response into the caches.  The request issued is logged. -/
def do_search (b : Backend) (qs : EsQueryset) : Except PyErr (EsQueryset × List Request) :=
  if is_evaluated qs then pure (qs, [])
  else do
    let p ← build_search_params qs
    let r := b.searchFn p
    pure
      ({ qs with
          _body := some p.body
          _response := some r
          _facets := if optListTruthy qs.facets_fields then r.aggregations else qs._facets
          _suggestions := r.suggest
          _result_cache := r.hits
          _max_score := r.max_score
          _total := some r.total },
        [Request.searchReq p])

/-- Model of `EsQueryset.__iter__` (query.py lines 79-82): evaluate, then yield the
cached rows. -/
def iterOp (b : Backend) (qs : EsQueryset) :
    Except PyErr (List Int × EsQueryset × List Request) := do
  let (qs', reqs) ← do_search b qs
  pure (qs'._result_cache, qs', reqs)

/-- Model of `EsQueryset.__len__` (query.py lines 123-125). -/
def lenOp (b : Backend) (qs : EsQueryset) :
    Except PyErr (Nat × EsQueryset × List Request) := do
  let (qs', reqs) ← do_search b qs
  pure (qs'._result_cache.length, qs', reqs)

/-- Model of `EsQueryset.__contains__` (query.py lines 108-111): evaluate, then test
the instance id against the cached rows' ids (rows are modelled by their ids,
so the deserialized and raw branches coincide). -/
def containsOp (b : Backend) (qs : EsQueryset) (id : Int) :
    Except PyErr (Bool × EsQueryset × List Request) := do
  let (qs', reqs) ← do_search b qs
  pure (decide (id ∈ qs'._result_cache), qs', reqs)

/-- Model of `EsQueryset.__getitem__` with an integer index (query.py lines 90-106):
clear the result cache of `self`, overwrite the pagination window in place
to `[ndx, ndx+1)`, re-evaluate, and return the single fetched row
(`IndexError` when the backend returned no row). -/
def getitemInt (b : Backend) (qs : EsQueryset) (ndx : Nat) :
    Except PyErr (Int × EsQueryset × List Request) := do
  let qs1 := { qs with _result_cache := [], _start := ndx, _stop := some (ndx + 1) }
  let (qs2, reqs) ← do_search b qs1
  match qs2._result_cache with
  | r :: _ => pure (r, qs2, reqs)
  | [] => Except.error PyErr.indexError

/-- Model of `EsQueryset.__getitem__` with a slice (query.py lines 90-103): clear the
cache of `self`, overwrite the window in place (`ndx.start or 0`), and return
the realized list of rows. -/
def getitemSlice (b : Backend) (qs : EsQueryset) (start stop : Option Nat) :
    Except PyErr (List Int × EsQueryset × List Request) := do
  let qs1 := { qs with _result_cache := [], _start := start.getD 0, _stop := stop }
  let (qs2, reqs) ← do_search b qs1
  pure (qs2._result_cache, qs2, reqs)

/-- Model of `EsQueryset.count` (query.py lines 443-456): return `self._total` when it
is truthy (`None` and `0` are falsy); otherwise force a full `do_search` in
MLT mode, or issue a count-only request against the compiled body in standard
mode, caching the returned count.  The value returned is `self._total`. -/
def countOp (b : Backend) (qs : EsQueryset) :
    Except PyErr (Option Nat × EsQueryset × List Request) :=
  if optNatTruthy qs._total then pure (qs._total, qs, [])
  else if qs.mode = MODE_MLT then do
    let (qs', reqs) ← do_search b qs
    pure (qs'._total, qs', reqs)
  else do
    let body ← make_search_body qs
    let n := b.countFn qs.index body
    pure (some n, { qs with _total := some n }, [Request.countReq qs.index body])

/-- Model of `EsQueryset.filter` (query.py lines 331-334): clone, then merge the
keyword lookups into the clone's filters.  Returns
`(self-after-call, returned-cursor)`. -/
def filterOp (qs : EsQueryset) (kwargs : List (Str × FilterValue)) :
    EsQueryset × EsQueryset :=
  let clone := _clone qs
  (qs, { clone with filters := dictUpdate clone.filters kwargs })

/-- The `inverse_map` of `EsQueryset.exclude` (query.py line 366). -/
def inverse_map (op : Str) : Str :=
  if op = "gt".data then "lte".data
  else if op = "gte".data then "lt".data
  else if op = "lt".data then "gte".data
  else "gt".data

/-- One iteration of the rewrite loop in `EsQueryset.exclude` (query.py lines
356-375): produce the rewritten `(lookup, value)` entry for one keyword
argument.  Subscripting a non-tuple `range` value raises `TypeError`. -/
def excludeEntry (lookup : Str) (value : FilterValue) : Except PyErr (Str × FilterValue) :=
  let (field, operator) := sanitize_lookup lookup
  if operator = "must".data then pure (field ++ "__must_not".data, value)
  else if operator = "must_not".data then pure (field, value)
  else if operator = "should".data then pure (field ++ "__must_not".data, value)
  else if operator ∈ ["gt".data, "gte".data, "lt".data, "lte".data] then
    pure (field ++ "__".data ++ inverse_map operator, value)
  else if operator = "exists".data then pure (lookup, .bool (! truthy value))
  else if operator = "isnull".data then pure (lookup, .bool (! truthy value))
  else if operator = "range".data then
    match value with
    | .pair a b => pure (lookup, .pair b a)
    | _ => Except.error PyErr.typeError
  else Except.error PyErr.notImplementedError

/-- The `filters` dict `exclude` accumulates before merging it into the
clone. -/
def excludeBuild (acc : List (Str × FilterValue)) :
    List (Str × FilterValue) → Except PyErr (List (Str × FilterValue))
  | [] => pure acc
  | (lookup, value) :: rest => do
    let (k, v) ← excludeEntry lookup value
    excludeBuild (dictSet acc k v) rest

/-- Model of `EsQueryset.exclude` (query.py lines 352-378): clone, rewrite each lookup
to its inverse, and merge the rewritten filters into the clone.  Returns
`(self-after-call, returned-cursor)`. -/
def excludeOp (qs : EsQueryset) (kwargs : List (Str × FilterValue)) :
    Except PyErr (EsQueryset × EsQueryset) := do
  let clone := _clone qs
  let fs ← excludeBuild [] kwargs
  pure (qs, { clone with filters := dictUpdate clone.filters fs })

/-- Model of `EsQueryset.deserialize` (query.py lines 458-460): set `_deserialize` on
`self` and return `self` - an in-place mutation, not a clone. -/
def deserializeOp (qs : EsQueryset) : EsQueryset × EsQueryset :=
  let s := { qs with _deserialize := true }
  (s, s)

/-- Model of `EsQueryset.mlt` (query.py lines 403-407): switch `self` to MLT mode in
place and return `self`. -/
def mltOp (qs : EsQueryset) (id : Int) (kwargs : MltKwargs) : EsQueryset × EsQueryset :=
  let s := { qs with mode := MODE_MLT, mlt_kwargs := some { kwargs with id := some id } }
  (s, s)

/-- Backend model for the semantic claims: how the search engine evaluates a
compiled `range` clause against a document whose field holds the integer
value `v`. -/
def rangeMatches (bnds : RangeBounds) (v : Int) : Bool :=
  match bnds with
  | .single op x =>
    match x with
    | .int n =>
      if op = "gt".data then decide (v > n)
      else if op = "gte".data then decide (v ≥ n)
      else if op = "lt".data then decide (v < n)
      else if op = "lte".data then decide (v ≤ n)
      else false
    | _ => false
  | .both lo hi =>
    match lo, hi with
    | .int a, .int b => decide (a ≤ v) && decide (v ≤ b)
    | _, _ => false

/-- A backend test double over a fixed ordered document list: `search` honours
the pagination window and reports the full match count, `count` reports the
document count.  Used to instantiate witnesses and counterexamples. -/
def mkBackend (docs : List Int) : Backend :=
  { searchFn := fun p =>
      { hits := ((docs.drop (p.fromParam.getD 0)).take
          ((p.sizeParam.getD (docs.length : Int)).toNat))
        max_score := some 1
        total := docs.length
        suggest := none
        aggregations := none }
    countFn := fun _ _ => docs.length }

/-- A small index descriptor for witnesses: plain (non-nested, non-text)
fields only. -/
def demoModel : EsModel :=
  { index := "idx".data
    searchFields := ["first_name".data, "last_name".data]
    mapping := [("id".data, FieldType.other), ("age".data, FieldType.other)]
    ordering := none }

/-- A freshly constructed cursor over `demoModel`. -/
def demoQs : EsQueryset := initQs demoModel none (some (1 / 2 : ℚ))

/-- Number of backend round trips an operation performed. -/
def reqsLenOf {α : Type} (e : Except PyErr (α × EsQueryset × List Request)) : Nat :=
  match e with
  | .ok (_, _, rs) => rs.length
  | .error _ => 0

/-- The cursor state after an operation (with a fallback for the error case). -/
def stateOf {α : Type} (dflt : EsQueryset) (e : Except PyErr (α × EsQueryset × List Request)) :
    EsQueryset :=
  match e with
  | .ok (_, q, _) => q
  | .error _ => dflt

/-- The cursor `demoQs` after one full iteration against a two-document
backend. -/
def c1AfterIter : EsQueryset := stateOf demoQs (iterOp (mkBackend [5, 7]) demoQs)

/-- The cursor `demoQs` after one full iteration against a backend with zero
matching documents: evaluated, with `_total = some 0` cached. -/
def c6Eval : EsQueryset := stateOf demoQs (iterOp (mkBackend []) demoQs)

/-- A cursor switched to MLT mode (`mlt(id=1)`). -/
def c6MltQs : EsQueryset := (mltOp demoQs 1 {}).1

/-- An already-evaluated cursor over documents `[5, 7]`. -/
def c10Start : EsQueryset := { demoQs with _result_cache := [5, 7], _total := some 2 }

/-- The outcome of `c10Start[1]`. -/
def c10Res : Except PyErr (Int × EsQueryset × List Request) :=
  getitemInt (mkBackend [5, 7]) c10Start 1

/-- The cursor state after `c10Start[1]`. -/
def c10After : EsQueryset := stateOf c10Start c10Res

/-- The requests issued by `c10Start[1]`. -/
def c10Reqs : List Request :=
  match c10Res with
  | .ok (_, _, rs) => rs
  | .error _ => []

/-- The row returned by `c10Start[1]`. -/
def c10Row : Int :=
  match c10Res with
  | .ok (r, _, _) => r
  | .error _ => 0

/-- A three-document backend for the slicing witness. -/
def c10SBackend : Backend := mkBackend [5, 7, 9]

/-- An already-evaluated cursor over documents `[5, 7, 9]`. -/
def c10SStart : EsQueryset := { demoQs with _result_cache := [5, 7, 9], _total := some 3 }

/-- The outcome of `c10SStart[1:3]`. -/
def c10SRes : Except PyErr (List Int × EsQueryset × List Request) :=
  getitemSlice c10SBackend c10SStart (some 1) (some 3)

/-- The cursor state after `c10SStart[1:3]`. -/
def c10SAfter : EsQueryset := stateOf c10SStart c10SRes

/-- The requests issued by `c10SStart[1:3]`. -/
def c10SReqs : List Request :=
  match c10SRes with
  | .ok (_, _, rs) => rs
  | .error _ => []

/-- The realized row list returned by `c10SStart[1:3]`. -/
def c10SRows : List Int :=
  match c10SRes with
  | .ok (r, _, _) => r
  | .error _ => []

/-- An already-evaluated cursor over documents `[5, 7]` (cache populated,
total cached). -/
def c1Evaluated : EsQueryset := { demoQs with _result_cache := [5, 7], _total := some 2 }

/-- The outcome of `do_search` on the MLT-mode cursor against a one-document
backend. -/
def c6MltRes : Except PyErr (EsQueryset × List Request) := do_search (mkBackend [9]) c6MltQs

/-- The cursor state after evaluating the MLT-mode cursor. -/
def c6MltAfter : EsQueryset :=
  match c6MltRes with
  | .ok (q, _) => q
  | .error _ => c6MltQs

/-- The requests issued while evaluating the MLT-mode cursor. -/
def c6MltReqs : List Request :=
  match c6MltRes with
  | .ok (_, rs) => rs
  | .error _ => []

/-- The boolean body compiled for a cursor whose query text is `"foo"` and
whose filters are empty. -/
def c8Body : BoolBody :=
  { must := [.flat (.multi_match "foo".data demoModel.searchFields (some ((1 : ℚ) / 2)))] }

theorem dictGet_set_self {α : Type} (k : Str) (v : α) :
    ∀ d : List (Str × α), dictGet (dictSet d k v) k = some v
  | [] => by simp [dictSet, dictGet]
  | (k0, v0) :: rest => by
    by_cases hk : k0 = k
    · simp [dictSet, dictGet, hk]
    · simp [dictSet, dictGet, hk, dictGet_set_self k v rest]

theorem dictGet_set_ne {α : Type} (k k' : Str) (v : α) (hne : k' ≠ k) :
    ∀ d : List (Str × α), dictGet (dictSet d k v) k' = dictGet d k'
  | [] => by
    have hkk : ¬ k = k' := fun h => hne h.symm
    simp [dictSet, dictGet, hkk]
  | (k0, v0) :: rest => by
    by_cases hk : k0 = k
    · subst hk
      have hkk : ¬ k0 = k' := fun h => hne h.symm
      simp [dictSet, dictGet, hkk]
    · by_cases hk' : k0 = k'
      · subst hk'
        simp [dictSet, dictGet, hne]
      · simp [dictSet, dictGet, hk, hk', dictGet_set_ne k k' v hne rest]

theorem dictSet_eq_append {α : Type} (k : Str) (v : α) :
    ∀ d : List (Str × α), dictHas d k = false → dictSet d k v = d ++ [(k, v)]
  | [], _ => by simp [dictSet]
  | (k0, v0) :: rest, h => by
    have hk : ¬ k0 = k := by
      intro hh
      simp [dictHas, hh] at h
    have h2 : dictHas rest k = false := by
      simpa [dictHas, hk] using h
    simp [dictSet, hk, dictSet_eq_append k v rest h2]

theorem splitOn2_ne_nil : ∀ s : Str, splitOn2 s ≠ [] := by
  intro s
  induction s using splitOn2.induct <;> simp_all [splitOn2]

/-- C2: for every cursor `A` and values `v1`, `v2`, building `B = A.filter(k=v1)`
and `C = A.filter(k=v2)` leaves `A` (its filters and all other query state)
unchanged, while `B.filters[k] = v1` and `C.filters[k] = v2`, and other keys of
the derived filters agree with `A`'s.  (Clones are deep copies excluding the
result caches, so they share no mutable state with `A`; the embedding's value
semantics reflects this.) -/
theorem C2_filter_cloning_independence (A : EsQueryset) (k k' : Str)
    (v1 v2 : FilterValue) (hk' : k' ≠ k) :
    (filterOp A [(k, v1)]).1 = A ∧
    (filterOp A [(k, v2)]).1 = A ∧
    dictGet (filterOp A [(k, v1)]).2.filters k = some v1 ∧
    dictGet (filterOp A [(k, v2)]).2.filters k = some v2 ∧
    dictGet (filterOp A [(k, v1)]).2.filters k' = dictGet A.filters k' := by
  refine ⟨rfl, rfl, ?_, ?_, ?_⟩
  · simpa [filterOp, dictUpdate, _clone, esDeepcopy] using dictGet_set_self k v1 A.filters
  · simpa [filterOp, dictUpdate, _clone, esDeepcopy] using dictGet_set_self k v2 A.filters
  · simpa [filterOp, dictUpdate, _clone, esDeepcopy] using dictGet_set_ne k k' v1 hk' A.filters

theorem C2_witness :
    (filterOp demoQs [("last_name".data, FilterValue.str "Smith".data)]).1 = demoQs ∧
    (filterOp demoQs [("last_name".data, FilterValue.str "Doe".data)]).1 = demoQs ∧
    dictGet (filterOp demoQs [("last_name".data, FilterValue.str "Smith".data)]).2.filters
      "last_name".data = some (FilterValue.str "Smith".data) ∧
    dictGet (filterOp demoQs [("last_name".data, FilterValue.str "Doe".data)]).2.filters
      "last_name".data = some (FilterValue.str "Doe".data) ∧
    dictGet (filterOp demoQs [("last_name".data, FilterValue.str "Smith".data)]).2.filters
      "first_name".data = dictGet demoQs.filters "first_name".data :=
  C2_filter_cloning_independence demoQs "last_name".data "first_name".data
    (FilterValue.str "Smith".data) (FilterValue.str "Doe".data) (by decide)

/-- C9 counterexample: `deserialize()` does not leave the original cursor's
deserialize flag unchanged - it sets the flag on the receiver itself.  On the
concrete cursor `demoQs` (flag `false`), after the call the receiver's flag is
`true`. -/
theorem C9_counterexample :
    demoQs._deserialize = false ∧ (deserializeOp demoQs).1._deserialize = true :=
  ⟨rfl, rfl⟩

/-- C9 (amended): `deserialize()` sets the deserialize flag on the cursor
itself and returns that same mutated cursor - an in-place mutation, not a
clone; when the flag was previously unset the receiver is observably
changed. -/
theorem C9_deserialize_mutates_in_place (qs : EsQueryset) :
    (deserializeOp qs).1 = { qs with _deserialize := true } ∧
    (deserializeOp qs).2 = (deserializeOp qs).1 ∧
    (qs._deserialize = false → (deserializeOp qs).1 ≠ qs) := by
  refine ⟨rfl, rfl, ?_⟩
  intro h hEq
  have h2 := congrArg EsQueryset._deserialize hEq
  simp [deserializeOp, h] at h2

theorem C9_witness :
    (deserializeOp demoQs).1 ≠ demoQs ∧
    (deserializeOp demoQs).2 = (deserializeOp demoQs).1 :=
  ⟨(C9_deserialize_mutates_in_place demoQs).2.2 rfl,
   (C9_deserialize_mutates_in_place demoQs).2.1⟩

/-- C3: the code's behavior at the failing input `exclude(id__range=(0, 1))`:
no exception is raised; the call returns a clone whose filters map the same
lookup key to the swapped-bounds tuple `(1, 0)`.  The repository's own test
(`test_qs.py::test_excluding`) instead asserts that this call raises
`NotImplementedError`, so the code contradicts its own test suite here. -/
theorem C3_exclude_range_swaps_bounds :
    excludeOp demoQs [("id__range".data, FilterValue.pair (.int 0) (.int 1))] =
      Except.ok (demoQs,
        { demoQs with
            filters := [("id__range".data, FilterValue.pair (.int 1) (.int 0))] }) := by
  rfl

/-- C5 counterexample: on the lookup `"age__gt__name"` the trailing segment
`"name"` is not a recognized operator, so the claim demands the field path
`"age.gt.name"` (every segment retained); the parser instead also drops the
non-trailing operator segment `"gt"` and returns `"age.name"`. -/
theorem C5_counterexample :
    sanitize_lookup "age__gt__name".data = ("age.name".data, "must".data) ∧
    ("age.name".data : Str) ≠ "age.gt.name".data := by
  decide

/-- C4: `exclude(field__gt=X)` produces exactly the cursor `filter(field__lte=X)`
produces (same filter state, hence the same compiled body and result set),
and likewise for the other three inequality pairs; and over any document
field value the compiled `gt`/`lte` (resp. `gte`/`lt`) range clauses select
exact complements.  The sanitize hypotheses say that `field` is an ordinary
field name (no `__` inside it, not itself an operator name). -/
theorem C4_exclude_inverts_inequalities (qs : EsQueryset) (f : Str) (X : FilterValue)
    (x v : Int)
    (hgt : sanitize_lookup (f ++ "__gt".data) = (f, "gt".data))
    (hgte : sanitize_lookup (f ++ "__gte".data) = (f, "gte".data))
    (hlt : sanitize_lookup (f ++ "__lt".data) = (f, "lt".data))
    (hlte : sanitize_lookup (f ++ "__lte".data) = (f, "lte".data)) :
    excludeOp qs [(f ++ "__gt".data, X)] = Except.ok (filterOp qs [(f ++ "__lte".data, X)]) ∧
    excludeOp qs [(f ++ "__gte".data, X)] = Except.ok (filterOp qs [(f ++ "__lt".data, X)]) ∧
    excludeOp qs [(f ++ "__lt".data, X)] = Except.ok (filterOp qs [(f ++ "__gte".data, X)]) ∧
    excludeOp qs [(f ++ "__lte".data, X)] = Except.ok (filterOp qs [(f ++ "__gt".data, X)]) ∧
    rangeMatches (.single "gt".data (.int x)) v
      = ! rangeMatches (.single "lte".data (.int x)) v ∧
    rangeMatches (.single "gte".data (.int x)) v
      = ! rangeMatches (.single "lt".data (.int x)) v := by
  have hnil : ∀ (k : Str) (w : FilterValue), dictSet [] k w = [(k, w)] := fun _ _ => rfl
  refine ⟨?_, ?_, ?_, ?_, ?_, ?_⟩
  · have hkey : ("__".data ++ inverse_map "gt".data : Str) = "__lte".data := by decide
    simp [excludeOp, excludeBuild, excludeEntry, hgt, filterOp, dictUpdate, hkey, hnil,
      pure, Except.pure, bind, Except.bind]
  · have hkey : ("__".data ++ inverse_map "gte".data : Str) = "__lt".data := by decide
    simp [excludeOp, excludeBuild, excludeEntry, hgte, filterOp, dictUpdate, hkey, hnil,
      pure, Except.pure, bind, Except.bind]
  · have hkey : ("__".data ++ inverse_map "lt".data : Str) = "__gte".data := by decide
    simp [excludeOp, excludeBuild, excludeEntry, hlt, filterOp, dictUpdate, hkey, hnil,
      pure, Except.pure, bind, Except.bind]
  · have hkey : ("__".data ++ inverse_map "lte".data : Str) = "__gt".data := by decide
    simp [excludeOp, excludeBuild, excludeEntry, hlte, filterOp, dictUpdate, hkey, hnil,
      pure, Except.pure, bind, Except.bind]
  · simp [rangeMatches, ← decide_not, not_le]
  · simp [rangeMatches, ← decide_not, not_lt]

theorem C4_witness :
    excludeOp demoQs [("age__gt".data, FilterValue.int 30)] =
      Except.ok (filterOp demoQs [("age__lte".data, FilterValue.int 30)]) ∧
    rangeMatches (.single "gt".data (.int 30)) 30
      = ! rangeMatches (.single "lte".data (.int 30)) 30 := by
  have h := C4_exclude_inverts_inequalities demoQs "age".data (FilterValue.int 30) 30 30
    (by decide) (by decide) (by decide) (by decide)
  exact ⟨h.1, h.2.2.2.2.1⟩

/-- C5 (amended): the parser drops operator-named segments wherever they
occur, not only at the tail, and keeps every other segment: for every lookup,
(i) when no segment is an operator name the result is the whole key rejoined
with `.` and the operator defaults to `must`; (ii) a recognized operator
segment at any position - including mid-path - is dropped, the path being
that of the remaining segments; (iii) every non-operator segment is retained;
(iv) the path is exactly the non-operator segments rejoined with `.`; and the
operator is the trailing segment exactly when that segment is recognized,
else `must`. -/
theorem C5_sanitize_lookup_characterization (lookup : Str) :
    ((∀ w ∈ splitOn2 lookup, w ∉ valid_operators) →
      sanitize_lookup lookup = (interDot (splitOn2 lookup), "must".data)) ∧
    (∀ ws1 w ws2, splitOn2 lookup = ws1 ++ w :: ws2 → w ∈ valid_operators →
      (sanitize_lookup lookup).1
        = interDot ((ws1 ++ ws2).filter (fun u => decide (u ∉ valid_operators)))) ∧
    (∀ w ∈ splitOn2 lookup, w ∉ valid_operators →
      w ∈ (splitOn2 lookup).filter (fun u => decide (u ∉ valid_operators))) ∧
    ((sanitize_lookup lookup).1
      = interDot ((splitOn2 lookup).filter (fun u => decide (u ∉ valid_operators)))) ∧
    ((splitOn2 lookup).getLastD [] ∈ valid_operators →
      (sanitize_lookup lookup).2 = (splitOn2 lookup).getLastD []) ∧
    ((splitOn2 lookup).getLastD [] ∉ valid_operators →
      (sanitize_lookup lookup).2 = "must".data) := by
  refine ⟨?_, ?_, ?_, rfl, ?_, ?_⟩
  · intro hall
    have hfil : (splitOn2 lookup).filter (fun w => decide (w ∉ valid_operators))
        = splitOn2 lookup :=
      List.filter_eq_self.mpr (fun w hw => by simpa using hall w hw)
    have hlast : (splitOn2 lookup).getLastD [] ∉ valid_operators := by
      have hmem := List.getLastD_mem_cons (splitOn2 lookup) []
      rcases List.mem_cons.mp hmem with h | h
      · rw [h]
        decide
      · exact hall _ h
    simp only [sanitize_lookup, hfil]
    rw [if_neg (by simpa using hlast)]
  · intro ws1 w ws2 hsplit hw
    simp only [sanitize_lookup, hsplit]
    rw [List.filter_append, List.filter_append, List.filter_cons]
    simp [hw]
  · intro w hw hnot
    simp [List.mem_filter, hw, hnot]
  · intro hin
    simp only [sanitize_lookup]
    rw [if_pos hin]
  · intro hnotin
    simp only [sanitize_lookup]
    rw [if_neg hnotin]

theorem C5_witness :
    sanitize_lookup "a__b".data = (interDot (splitOn2 "a__b".data), "must".data) ∧
    (sanitize_lookup "age__gt__name".data).1
      = interDot ((["age".data] ++ ["name".data]).filter
          (fun u => decide (u ∉ valid_operators))) ∧
    (sanitize_lookup "age__gt".data).2 = "gt".data ∧
    (sanitize_lookup "age__gt__name".data).2 = "must".data := by
  refine ⟨?_, ?_, ?_, ?_⟩
  · exact (C5_sanitize_lookup_characterization "a__b".data).1 (by decide)
  · exact (C5_sanitize_lookup_characterization "age__gt__name".data).2.1
      ["age".data] "gt".data ["name".data] (by decide) (by decide)
  · exact (C5_sanitize_lookup_characterization "age__gt".data).2.2.2.2.1 (by decide)
  · exact (C5_sanitize_lookup_characterization "age__gt__name".data).2.2.2.2.2 (by decide)

/-- C1 counterexample: after a full iteration has populated the result cache
(`[5, 7]`, one round trip), the terminal operation `qs[0]` on the same cursor
does not read from the cache - it clears it and issues a second backend
request.  Two terminal operations on the same unmutated cursor thus perform
two round trips, refuting the claim for indexing. -/
theorem C1_counterexample :
    reqsLenOf (iterOp (mkBackend [5, 7]) demoQs) = 1 ∧
    c1AfterIter._result_cache = [5, 7] ∧
    reqsLenOf (getitemInt (mkBackend [5, 7]) c1AfterIter 0) = 1 := by
  decide

/-- C1 (amended): once a terminal operation has left the result cache
non-empty, every subsequent iteration, length read, or membership test on the
same unmutated cursor reads from the cache, leaves the cursor unchanged, and
issues no backend request.  (Indexing and slicing are excluded: they clear
the cache and always re-issue the request; likewise a query with zero hits
leaves the cache empty, so it never counts as evaluated.) -/
theorem C1_cache_reused_by_nonmutating_terminals (b : Backend) (qs : EsQueryset) (id : Int)
    (h : qs._result_cache ≠ []) :
    iterOp b qs = Except.ok (qs._result_cache, qs, []) ∧
    lenOp b qs = Except.ok (qs._result_cache.length, qs, []) ∧
    containsOp b qs id = Except.ok (decide (id ∈ qs._result_cache), qs, []) := by
  have he : is_evaluated qs = true := by
    simp [is_evaluated, List.length_pos]
    exact h
  simp [iterOp, lenOp, containsOp, do_search, he, pure, Except.pure, bind, Except.bind]

theorem C1_witness :
    iterOp (mkBackend [5, 7]) c1Evaluated = Except.ok ([5, 7], c1Evaluated, []) ∧
    lenOp (mkBackend [5, 7]) c1Evaluated = Except.ok (2, c1Evaluated, []) ∧
    containsOp (mkBackend [5, 7]) c1Evaluated 5 = Except.ok (true, c1Evaluated, []) := by
  have h := C1_cache_reused_by_nonmutating_terminals (mkBackend [5, 7]) c1Evaluated 5
    (by decide)
  exact ⟨h.1, h.2.1, h.2.2⟩

/-- C6 counterexample: a cursor that has already been evaluated (one search
round trip happened; the total `0` is cached) on which `count()` nevertheless
issues another backend request, because `if self._total:` treats the cached
total `0` as absent. -/
theorem C6_counterexample :
    reqsLenOf (iterOp (mkBackend []) demoQs) = 1 ∧
    c6Eval._total = some 0 ∧
    reqsLenOf (countOp (mkBackend []) c6Eval) = 1 := by
  decide

/-- C6 (amended): `count()` returns the cached total without any backend
request only when the cached total is present and non-zero; otherwise (total
absent, or cached as zero) it issues a count-only request against the
compiled body in STANDARD_SEARCH mode - no search request, no result rows -
caching the count, and in MORE_LIKE_THIS mode it delegates to a full
`do_search` evaluation and returns the resulting total. -/
theorem C6_count_behavior (b : Backend) (qs : EsQueryset) :
    (∀ n, qs._total = some n → n ≠ 0 → countOp b qs = Except.ok (some n, qs, [])) ∧
    (optNatTruthy qs._total = false → qs.mode = MODE_SEARCH →
      ∀ body, make_search_body qs = Except.ok body →
        countOp b qs = Except.ok (some (b.countFn qs.index body),
          { qs with _total := some (b.countFn qs.index body) },
          [Request.countReq qs.index body])) ∧
    (optNatTruthy qs._total = false → qs.mode = MODE_MLT →
      ∀ qs' reqs, do_search b qs = Except.ok (qs', reqs) →
        countOp b qs = Except.ok (qs'._total, qs', reqs)) := by
  refine ⟨?_, ?_, ?_⟩
  · intro n hn hne
    have ht : optNatTruthy qs._total = true := by simp [optNatTruthy, hn, hne]
    simp [countOp, ht, hn, pure, Except.pure]
    intro hf
    simp [optNatTruthy, hne] at hf
  · intro ht hmode body hbody
    have hm2 : ¬ (qs.mode = MODE_MLT) := by
      rw [hmode]
      decide
    simp [countOp, ht, hm2, hbody, pure, Except.pure, bind, Except.bind]
  · intro ht hmode qs' reqs hds
    simp [countOp, ht, hmode, hds, pure, Except.pure, bind, Except.bind]

theorem C6_witness :
    countOp (mkBackend []) { demoQs with _total := some 3 } =
      Except.ok (some 3, { demoQs with _total := some 3 }, []) ∧
    countOp (mkBackend [1, 2]) demoQs =
      Except.ok (some 2, { demoQs with _total := some 2 },
        [Request.countReq "idx".data { must := [.flat .match_all] }]) ∧
    countOp (mkBackend [9]) c6MltQs = Except.ok (c6MltAfter._total, c6MltAfter, c6MltReqs) := by
  refine ⟨?_, ?_, ?_⟩
  · exact (C6_count_behavior (mkBackend []) { demoQs with _total := some 3 }).1 3 rfl
      (by decide)
  · exact (C6_count_behavior (mkBackend [1, 2]) demoQs).2.1 (by decide) rfl
      { must := [.flat .match_all] } rfl
  · exact (C6_count_behavior (mkBackend [9]) c6MltQs).2.2 (by decide) rfl
      c6MltAfter c6MltReqs rfl

/-- C10: `qs[i]` and `qs[a:b]` mutate the cursor itself rather than a clone:
both clear `qs`'s result cache and overwrite its pagination window in place
(`[i, i+1)` for an index, `[a or 0, b)` for a slice; all other query state -
filters, mode, query text, deserialize flag - stays that of `qs` itself),
re-execute the search restricted to that window (`from` emitted exactly when
the new start is non-zero, `size = 1` for an index and `stop - start` for a
slice), and any subsequent iteration of the same cursor reads the cached
window instead of the full result set (slicing returns the realized row
list, which is exactly the window now cached on the cursor). -/
theorem C10_getitem_mutates_in_place (b : Backend) (qs : EsQueryset) (i : Nat)
    (start stop : Option Nat) :
    (∀ r qs2 reqs, getitemInt b qs i = Except.ok (r, qs2, reqs) →
      qs2._start = i ∧ qs2._stop = some (i + 1) ∧
      qs2.filters = qs.filters ∧ qs2.mode = qs.mode ∧
      qs2._query = qs._query ∧ qs2._deserialize = qs._deserialize ∧
      reqs.length = 1 ∧
      (∀ p, reqs = [Request.searchReq p] →
        p.fromParam = (if i = 0 then none else some i) ∧ p.sizeParam = some 1) ∧
      iterOp b qs2 = Except.ok (qs2._result_cache, qs2, []) ∧
      r ∈ qs2._result_cache) ∧
    (∀ rows qs3 reqs3, getitemSlice b qs start stop = Except.ok (rows, qs3, reqs3) →
      qs3._start = start.getD 0 ∧ qs3._stop = stop ∧
      qs3.filters = qs.filters ∧ qs3.mode = qs.mode ∧
      qs3._query = qs._query ∧ qs3._deserialize = qs._deserialize ∧
      rows = qs3._result_cache ∧
      reqs3.length = 1 ∧
      (∀ p, reqs3 = [Request.searchReq p] →
        p.fromParam = (if start.getD 0 = 0 then none else some (start.getD 0)) ∧
        p.sizeParam = stop.bind (fun s =>
          if s = 0 then none else some ((s : Int) - ((start.getD 0 : Nat) : Int)))) ∧
      (qs3._result_cache ≠ [] →
        iterOp b qs3 = Except.ok (qs3._result_cache, qs3, []))) := by
  constructor
  · intro r qs2 reqs h
    set qs1 : EsQueryset :=
      { qs with _result_cache := [], _start := i, _stop := some (i + 1) } with hqs1
    cases hbp : build_search_params qs1 with
    | error e =>
      simp [getitemInt, do_search, is_evaluated, hbp, bind, Except.bind, hqs1] at h
    | ok p =>
      have hwin : p.fromParam = (if i = 0 then none else some i) ∧ p.sizeParam = some 1 := by
        clear h
        cases hms : make_search_body qs1 with
        | error e =>
          simp [build_search_params, hms, bind, Except.bind] at hbp
        | ok s =>
          by_cases hm : qs.mode = MODE_MLT
          · cases hmk : qs.mlt_kwargs with
            | none =>
              simp [build_search_params, hms, hm, hmk, bind, Except.bind] at hbp
            | some k =>
              simp [build_search_params, hms, hm, hmk, bind, Except.bind, pure,
                Except.pure] at hbp
              cases hbp
              exact ⟨by simp, by simp⟩
          · simp [build_search_params, hms, hm, bind, Except.bind, pure, Except.pure] at hbp
            cases hbp
            exact ⟨by simp, by simp⟩
      simp [getitemInt, do_search, is_evaluated, ← hqs1, hbp, bind, Except.bind,
        pure, Except.pure] at h
      cases hhits : (b.searchFn p).hits with
      | nil =>
        rw [hhits] at h
        simp at h
      | cons a rest =>
        rw [hhits] at h
        simp only [Except.ok.injEq, Prod.mk.injEq] at h
        obtain ⟨hr, hqs2, hreqs⟩ := h
        have hcache : qs2._result_cache = a :: rest := by rw [← hqs2]
        have hev : is_evaluated qs2 = true := by simp [is_evaluated, hcache]
        refine ⟨?_, ?_, ?_, ?_, ?_, ?_, ?_, ?_, ?_, ?_⟩
        · rw [← hqs2]
        · rw [← hqs2]
        · rw [← hqs2]
        · rw [← hqs2]
        · rw [← hqs2]
        · rw [← hqs2]
        · rw [← hreqs]
          rfl
        · intro p' hp'
          rw [← hreqs] at hp'
          simp only [List.cons.injEq, Request.searchReq.injEq] at hp'
          rw [← hp'.1]
          exact hwin
        · simp [iterOp, do_search, hev, bind, Except.bind, pure, Except.pure]
        · rw [hcache, ← hr]
          simp
  · intro rows qs3 reqs3 h
    set qs1 : EsQueryset :=
      { qs with _result_cache := [], _start := start.getD 0, _stop := stop } with hqs1
    cases hbp : build_search_params qs1 with
    | error e =>
      simp [getitemSlice, do_search, is_evaluated, hbp, bind, Except.bind, hqs1] at h
    | ok p =>
      have hwin : p.fromParam = (if start.getD 0 = 0 then none else some (start.getD 0)) ∧
          p.sizeParam = stop.bind (fun s =>
            if s = 0 then none else some ((s : Int) - ((start.getD 0 : Nat) : Int))) := by
        clear h
        cases hms : make_search_body qs1 with
        | error e =>
          simp [build_search_params, hms, bind, Except.bind] at hbp
        | ok s =>
          by_cases hm : qs.mode = MODE_MLT
          · cases hmk : qs.mlt_kwargs with
            | none =>
              simp [build_search_params, hms, hm, hmk, bind, Except.bind] at hbp
            | some k =>
              simp [build_search_params, hms, hm, hmk, bind, Except.bind, pure,
                Except.pure] at hbp
              cases hbp
              refine ⟨by simp, ?_⟩
              cases stop with
              | none => simp
              | some s0 => by_cases hs : s0 = 0 <;> simp [hs]
          · simp [build_search_params, hms, hm, bind, Except.bind, pure, Except.pure] at hbp
            cases hbp
            refine ⟨by simp, ?_⟩
            cases stop with
            | none => simp
            | some s0 => by_cases hs : s0 = 0 <;> simp [hs]
      simp [getitemSlice, do_search, is_evaluated, ← hqs1, hbp, bind, Except.bind,
        pure, Except.pure] at h
      obtain ⟨hrows, hqs3, hreqs⟩ := h
      refine ⟨?_, ?_, ?_, ?_, ?_, ?_, ?_, ?_, ?_, ?_⟩
      · rw [← hqs3]
      · rw [← hqs3]
      · rw [← hqs3]
      · rw [← hqs3]
      · rw [← hqs3]
      · rw [← hqs3]
      · rw [← hqs3, ← hrows]
      · rw [← hreqs]
        rfl
      · intro p' hp'
        rw [← hreqs] at hp'
        simp only [List.cons.injEq, Request.searchReq.injEq] at hp'
        rw [← hp'.1]
        exact hwin
      · intro hne
        have hev : is_evaluated qs3 = true := by
          simp [is_evaluated, List.length_pos]
          exact hne
        simp [iterOp, do_search, hev, bind, Except.bind, pure, Except.pure]

theorem C10_witness :
    c10After._start = 1 ∧ c10After._stop = some 2 ∧
    c10After.filters = c10Start.filters ∧
    c10Reqs.length = 1 ∧
    iterOp (mkBackend [5, 7]) c10After =
      Except.ok (c10After._result_cache, c10After, []) ∧
    c10Row ∈ c10After._result_cache ∧
    c10After._result_cache = [7] ∧
    c10After._result_cache ≠ [5, 7] ∧
    c10SAfter._start = 1 ∧ c10SAfter._stop = some 3 ∧
    c10SAfter.filters = c10SStart.filters ∧
    c10SReqs.length = 1 ∧
    c10SRows = c10SAfter._result_cache ∧
    iterOp c10SBackend c10SAfter =
      Except.ok (c10SAfter._result_cache, c10SAfter, []) ∧
    c10SAfter._result_cache = [7, 9] ∧
    c10SAfter._result_cache ≠ [5, 7, 9] := by
  have h := (C10_getitem_mutates_in_place (mkBackend [5, 7]) c10Start 1
    (some 1) (some 3)).1 c10Row c10After c10Reqs rfl
  have hs := (C10_getitem_mutates_in_place c10SBackend c10SStart 1
    (some 1) (some 3)).2 c10SRows c10SAfter c10SReqs rfl
  exact ⟨h.1, h.2.1, h.2.2.1, h.2.2.2.2.2.2.1, h.2.2.2.2.2.2.2.2.1,
    h.2.2.2.2.2.2.2.2.2, by decide, by decide,
    hs.1, hs.2.1, hs.2.2.1, hs.2.2.2.2.2.2.2.1, hs.2.2.2.2.2.2.1,
    hs.2.2.2.2.2.2.2.2.2 (by decide), by decide, by decide⟩

theorem mergeFilters_append (m : EsModel) (l1 : List (Str × FilterValue)) :
    ∀ (s : BoolBody) (l2 : List (Str × FilterValue)),
      mergeFilters m s (l1 ++ l2)
        = (mergeFilters m s l1).bind (fun s' => mergeFilters m s' l2) := by
  induction l1 with
  | nil =>
    intro s l2
    simp [mergeFilters, pure, Except.pure, Except.bind]
  | cons kv l1' ih =>
    intro s l2
    simp only [List.cons_append, mergeFilters]
    cases hc : compileFilter m kv with
    | error e => simp [hc, bind, Except.bind]
    | ok f => simp [hc, bind, Except.bind, ih]

theorem mergeFilters_must_prefix (m : EsModel) (l : List (Str × FilterValue)) :
    ∀ (s out : BoolBody), mergeFilters m s l = Except.ok out →
      ∃ t, out.must = s.must ++ t := by
  induction l with
  | nil =>
    intro s out h
    simp only [mergeFilters, pure, Except.pure, Except.ok.injEq] at h
    exact ⟨[], by rw [← h, List.append_nil]⟩
  | cons kv rest ih =>
    intro s out h
    simp only [mergeFilters] at h
    cases hc : compileFilter m kv with
    | error e =>
      rw [hc] at h
      simp [bind, Except.bind] at h
    | ok f =>
      rw [hc] at h
      simp only [bind, Except.bind] at h
      obtain ⟨t, ht⟩ := ih (nested_update s f) out h
      refine ⟨f.must ++ t, ?_⟩
      rw [ht]
      simp [nested_update, List.append_assoc]

/-- C8: compiling a cursor with non-empty query text seeds the boolean body
with a single `must` multi-field match clause over the model's declared
searchable fields with the configured fuzziness (the seed stays at the head
of the `must` bucket after the filter clauses merge behind it); compiling a
cursor with empty query text and no filters produces exactly the
match-everything body. -/
theorem C8_seed_clauses (qs : EsQueryset) :
    (qs._query ≠ [] → ∀ body, make_search_body qs = Except.ok body →
      body.must.head? = some (.flat (.multi_match qs._query qs.model.searchFields
        (fuzzinessParam qs.fuzziness)))) ∧
    (qs._query = [] → qs.filters = [] →
      make_search_body qs = Except.ok { must := [.flat .match_all] }) := by
  constructor
  · intro hq body hbody
    unfold make_search_body at hbody
    rw [if_pos hq] at hbody
    obtain ⟨t, ht⟩ := mergeFilters_must_prefix qs.model qs.filters _ body hbody
    rw [ht]
    rfl
  · intro hq hf
    simp [make_search_body, hq, hf, mergeFilters, pure, Except.pure]

theorem C8_witness :
    c8Body.must.head? = some (.flat (.multi_match "foo".data demoModel.searchFields
      (fuzzinessParam (some ((1 : ℚ) / 2))))) ∧
    make_search_body demoQs = Except.ok { must := [.flat .match_all] } := by
  constructor
  · exact (C8_seed_clauses { demoQs with _query := "foo".data }).1 (by decide) c8Body rfl
  · exact (C8_seed_clauses demoQs).2 rfl rfl

/-- C7: `filter(f__isnull=True)` and `filter(f__exists=False)` compile to the
identical boolean clause (a `must_not` existence clause on `f`), the two
derived cursors compile to identical search bodies, and they issue the
identical backend request - hence they select the identical result set.  The
sanitize hypotheses say the two lookups resolve to the field `f` with the
`isnull` (resp. `exists`) operator; the `dictHas` hypotheses say the base
cursor does not already filter on those keys. -/
theorem C7_isnull_exists_duality (qs : EsQueryset) (f kN kE : Str)
    (hN : sanitize_lookup kN = (f, "isnull".data))
    (hE : sanitize_lookup kE = (f, "exists".data))
    (hfN : dictHas qs.filters kN = false)
    (hfE : dictHas qs.filters kE = false) :
    compileFilter qs.model (kN, .bool true) = compileFilter qs.model (kE, .bool false) ∧
    make_search_body (filterOp qs [(kN, .bool true)]).2
      = make_search_body (filterOp qs [(kE, .bool false)]).2 ∧
    build_search_params (filterOp qs [(kN, .bool true)]).2
      = build_search_params (filterOp qs [(kE, .bool false)]).2 := by
  have hcf : compileFilter qs.model (kN, .bool true)
      = compileFilter qs.model (kE, .bool false) := by
    simp [compileFilter, hN, hE, truthy]
  have hupdN : dictUpdate qs.filters [(kN, FilterValue.bool true)]
      = qs.filters ++ [(kN, FilterValue.bool true)] := dictSet_eq_append _ _ _ hfN
  have hupdE : dictUpdate qs.filters [(kE, FilterValue.bool false)]
      = qs.filters ++ [(kE, FilterValue.bool false)] := dictSet_eq_append _ _ _ hfE
  have hmsb : make_search_body (filterOp qs [(kN, .bool true)]).2
      = make_search_body (filterOp qs [(kE, .bool false)]).2 := by
    simp only [make_search_body, filterOp, _clone, esDeepcopy, hupdN, hupdE]
    have hne1 : ¬ (qs.filters ++ [(kN, FilterValue.bool true)] = []) := by simp
    have hne2 : ¬ (qs.filters ++ [(kE, FilterValue.bool false)] = []) := by simp
    rw [mergeFilters_append, mergeFilters_append]
    by_cases hq : qs._query = []
    · simp only [hq, ne_eq, not_true_eq_false, if_false, hne1, hne2, ite_false]
      apply congrArg
      funext s'
      simp [mergeFilters, hcf, bind, Except.bind]
    · simp only [ne_eq, hq, not_false_eq_true, if_true]
      apply congrArg
      funext s'
      simp [mergeFilters, hcf, bind, Except.bind]
  refine ⟨hcf, hmsb, ?_⟩
  cases hmb : make_search_body (filterOp qs [(kN, FilterValue.bool true)]).2 with
  | error e =>
    have hmbE : make_search_body (filterOp qs [(kE, FilterValue.bool false)]).2
        = Except.error e := by rw [← hmsb, hmb]
    simp only [build_search_params, hmb, hmbE, bind, Except.bind]
  | ok s =>
    have hmbE : make_search_body (filterOp qs [(kE, FilterValue.bool false)]).2
        = Except.ok s := by rw [← hmsb, hmb]
    simp only [build_search_params, hmb, hmbE, bind, Except.bind]
    simp [filterOp, _clone, esDeepcopy]

theorem C7_witness :
    compileFilter demoQs.model ("email__isnull".data, .bool true)
      = compileFilter demoQs.model ("email__exists".data, .bool false) ∧
    make_search_body (filterOp demoQs [("email__isnull".data, .bool true)]).2
      = make_search_body (filterOp demoQs [("email__exists".data, .bool false)]).2 ∧
    build_search_params (filterOp demoQs [("email__isnull".data, .bool true)]).2
      = build_search_params (filterOp demoQs [("email__exists".data, .bool false)]).2 :=
  C7_isnull_exists_duality demoQs "email".data "email__isnull".data "email__exists".data
    (by decide) (by decide) (by decide) (by decide)
